import Mathlib

/-!
# Verification of the pushIn.js calculation core

Shallow embedding of the scroll-driven "dolly zoom" library pushIn.js:
the breakpoint resolver, the per-breakpoint parameter resolution, the
scale and opacity calculators, and the resize-time parameter reset.

Numbers produced by `parseInt` are modelled as `Int` (with `Option Int`
standing for the NaN outcome); the scale/opacity arithmetic is modelled
over `ℚ`.  Stateful code (`this.breakpoints`, mutated in place by
`Array.prototype.reverse`, and the per-layer `params` records) is
modelled by explicit state passing.
-/

namespace PushIn

/-! ## JavaScript `parseInt` (radix 10)

`parseInt(s, 10)` skips leading whitespace, accepts an optional sign,
then reads the maximal prefix of decimal digits; it yields NaN (here
`none`) when no digit is read. -/

/-- Maximal leading run of decimal digits of a character list. -/
def leadingDigits (cs : List Char) : List Char :=
  cs.takeWhile (fun c => c.isDigit)

/-- Value of a digit string (most significant first). -/
def digitsToNat (cs : List Char) : Nat :=
  cs.foldl (fun acc c => acc * 10 + (c.toNat - 48)) 0

/-- JavaScript `parseInt(s, 10)`: `none` models the NaN result. -/
def parseIntJS (s : String) : Option Int :=
  let cs := s.toList.dropWhile (fun c => c.isWhitespace)
  let signed : Int × List Char :=
    match cs with
    | '-' :: rest => (-1, rest)
    | '+' :: rest => (1, rest)
    | _ => (1, cs)
  let ds := leadingDigits signed.2
  if ds.isEmpty then none else some (signed.1 * (digitsToNat ds : Int))

/-! ## `getSpeed`

`src/pushin.js` (`PushIn.getSpeed`):
```
const defaultSpeed = 8;
const speed = hasAttr ? elem.dataset.pushinSpeed : defaultSpeed;
let speedInt = parseInt(speed, 10);
if (Number.isNaN(speedInt)) { speedInt = defaultSpeed; }
return speedInt || 8;
```
The attribute is `none` when absent and `some s` when the element
carries `data-pushin-speed="s"`. -/

def defaultSpeed : Int := 8

/-- `PushIn.getSpeed` from `src/pushin.js`. -/
def getSpeed (attr : Option String) : Int :=
  let speedInt : Int :=
    match attr with
    | some s =>
      match parseIntJS s with
      | some n => n
      | none => defaultSpeed
    | none => 8
  if speedInt = 0 then 8 else speedInt

/-- `PushInLayer.getSpeed` from the TypeScript layer class: the HTML
attribute wins when its string is truthy (present and non-empty); the
programmatic option is used only when itself truthy (non-zero); the
final `speed || DEFAULT_SPEED` turns `null` and `0` into 8. -/
def getSpeedTS (attr : Option String) (optSpeed : Option Int) : Int :=
  let speed : Option Int :=
    match attr with
    | some s =>
      if s ≠ "" then
        match parseIntJS s with
        | some n => some n
        | none => some defaultSpeed
      else
        match optSpeed with
        | some v => if v ≠ 0 then some v else none
        | none => none
    | none =>
      match optSpeed with
      | some v => if v ≠ 0 then some v else none
      | none => none
  match speed with
  | some n => if n = 0 then 8 else n
  | none => 8

/-! ## Breakpoint resolution (`PushIn.getBreakpointIndex`)

```
const searchIndex = this.breakpoints
  .reverse()
  .findIndex(bp => bp <= window.innerWidth);
return searchIndex === -1 ? 0 : this.breakpoints.length - 1 - searchIndex;
```
`Array.prototype.reverse` reverses `this.breakpoints` IN PLACE and
returns the same (now reversed) array, so the call both reads and
mutates the stored breakpoint list.  The function is therefore modelled
as a state transformer on the breakpoint list. -/

/-- `PushIn.getBreakpointIndex`: returns the computed index together
with the breakpoint list as it is left behind (reversed in place). -/
def getBreakpointIndexS (w : Int) (breakpoints : List Int) : Nat × List Int :=
  let rev := breakpoints.reverse
  match rev.findIdx? (fun bp => decide (bp ≤ w)) with
  | none => (0, rev)
  | some j => (rev.length - 1 - j, rev)

/-- Spec-side definition (§4.1): the highest index `i` such that
`breakpoints[i] <= w`; 0 if none qualifies.  Used only to compare the
code's behaviour with the stated contract. -/
def specBreakpointIndex (breakpoints : List Int) (w : Int) : Nat :=
  (List.range breakpoints.length).foldl
    (fun acc i => if breakpoints.getD i 1 ≤ w then i else acc) 0

/-! ## Per-breakpoint value resolution (`getInpoint` / `getOutpoint`)

```
getInpoint(inpoints)  { return inpoints[this.getBreakpointIndex()] || inpoints[0]; }
getOutpoint(outpoints){ return outpoints[this.getBreakpointIndex()] || outpoints[0]; }
```
Split into the pure resolution at a given index (`getInpoint` /
`getOutpoint` below) and the breakpoint-index computation.  A falsy
entry (`0`, or `undefined` on an out-of-range index) falls back to
`values[0]`. -/

/-- `PushIn.getInpoint` at an already-resolved breakpoint index. -/
def getInpoint (inpoints : List Int) (bpIndex : Nat) : Int :=
  match inpoints.get? bpIndex with
  | some v => if v = 0 then inpoints.headD 0 else v
  | none => inpoints.headD 0

/-- `PushIn.getOutpoint` at an already-resolved breakpoint index. -/
def getOutpoint (outpoints : List Int) (bpIndex : Nat) : Int :=
  match outpoints.get? bpIndex with
  | some v => if v = 0 then outpoints.headD 0 else v
  | none => outpoints.headD 0

/-! ## Resize-time parameter reset (`PushIn.resetLayerParams`)

```
resetLayerParams() {
  this.layers.forEach(layer => {
    layer.params = {
      inpoint: this.getInpoint(layer.ref.inpoints),
      outpoint: this.getOutpoint(layer.ref.outpoints),
      speed: this.getSpeed(layer.elem),
    };
  });
}
```
Each call of `getInpoint`/`getOutpoint` invokes `getBreakpointIndex`,
which reverses `this.breakpoints` in place, so the breakpoint list is
threaded as state through every lookup, two per layer. -/

/-- The raw per-breakpoint arrays of a layer (`layer.ref`). -/
structure LayerRef where
  inpoints : List Int
  outpoints : List Int
deriving DecidableEq, Repr

/-- The resolved per-viewport parameters (`layer.params`). -/
structure LayerParamsI where
  inpoint : Int
  outpoint : Int
  speed : Int
deriving DecidableEq, Repr

/-- One layer record of `src/pushin.js`: the `data-pushin-speed`
attribute string of its element, the immutable `ref` arrays, and the
mutable resolved `params`. -/
structure LayerI where
  speedAttr : Option String
  ref : LayerRef
  params : LayerParamsI
deriving DecidableEq, Repr

/-- The mutable state touched by `resetLayerParams`: the breakpoint
list (reversed in place by each `getBreakpointIndex` call) and the
layer records. -/
structure PushInState where
  breakpoints : List Int
  layers : List LayerI
deriving DecidableEq, Repr

/-- The `forEach` body of `resetLayerParams`, threading the breakpoint
list through the two `getBreakpointIndex` calls each layer makes. -/
def resetLayersGo (w : Int) : List LayerI → List Int → List LayerI × List Int
  | [], b => ([], b)
  | l :: ls, b =>
    let r1 := getBreakpointIndexS w b
    let inp := getInpoint l.ref.inpoints r1.1
    let r2 := getBreakpointIndexS w r1.2
    let outp := getOutpoint l.ref.outpoints r2.1
    let l' : LayerI := { l with params := ⟨inp, outp, getSpeed l.speedAttr⟩ }
    let rest := resetLayersGo w ls r2.2
    (l' :: rest.1, rest.2)

/-- `PushIn.resetLayerParams` at viewport width `w`. -/
def resetLayerParams (w : Int) (st : PushInState) : PushInState :=
  let r := resetLayersGo w st.layers st.breakpoints
  ⟨r.2, r.1⟩

/-! ## Scale and opacity (`PushInLayer.setLayerStyle`)

Modelled over `ℚ` from the TypeScript layer class
(`PushInLayer.getScaleValue`, `isActive`, `setLayerStyle`); the
`src/pushin.js` versions are the special case `transitions = true`,
`transitionStart = transitionEnd = 200`. -/

/-- The effective speed factor of `getScaleValue`:
`Math.min(speed, 100) / 100`. -/
def speedFactor (speed : ℚ) : ℚ := min speed 100 / 100

/-- `PushInLayer.getScaleValue`:
`max(originalScale + (scrollY - inpoint) * speedFactor / 100, 0)`. -/
def getScaleValue (scrollY inpoint speed originalScale : ℚ) : ℚ :=
  let distance := scrollY - inpoint
  let delta := distance * speedFactor speed / 100
  max (originalScale + delta) 0

/-- The resolved parameters consumed by `setLayerStyle`
(`layer.params` of the TypeScript class, fields the styling reads). -/
structure LayerParams where
  inpoint : ℚ
  outpoint : ℚ
  speed : ℚ
  transitions : Bool
  transitionStart : ℚ
  transitionEnd : ℚ
deriving DecidableEq, Repr

/-- `PushInLayer.isActive`: with transitions enabled the layer is
active iff `inpoint ≤ scrollY ≤ outpoint`; with transitions disabled it
is always active. -/
def isActive (p : LayerParams) (scrollY : ℚ) : Bool :=
  if p.transitions then
    decide (p.inpoint ≤ scrollY) && decide (scrollY ≤ p.outpoint)
  else true

/-- The style writes `setLayerStyle` performs: the opacity it assigns,
and the scale value passed to `setScale` when that call happens. -/
structure StyleResult where
  opacity : ℚ
  scaleWrite : Option ℚ
deriving DecidableEq, Repr

/-- `PushInLayer.setLayerStyle` for a layer at ordinal `index` among
`total` layers, with original scale `originalScale`, at scroll position
`scrollY`. -/
def setLayerStyle (p : LayerParams) (originalScale scrollY : ℚ)
    (index total : Nat) : StyleResult :=
  let isFirst : Bool := index == 0
  let isLast : Bool := index + 1 == total
  if isFirst && decide (scrollY < p.inpoint) then
    ⟨1, none⟩
  else if isLast && decide (scrollY > p.outpoint) then
    ⟨1, if !p.transitions then
          some (getScaleValue scrollY p.inpoint p.speed originalScale)
        else none⟩
  else if isActive p scrollY then
    let inpointDistanceRaw :=
      max (min (scrollY - p.inpoint) p.transitionStart) 0 / p.transitionStart
    let inpointDistance := if isFirst then 1 else inpointDistanceRaw
    let outpointDistanceRaw :=
      max (min (p.outpoint - scrollY) p.transitionEnd) 0 / p.transitionEnd
    let outpointDistance := if isLast then 1 else outpointDistanceRaw
    ⟨if p.transitions then min inpointDistance outpointDistance else 1,
     some (getScaleValue scrollY p.inpoint p.speed originalScale)⟩
  else
    ⟨0, none⟩

/-! ## Auxiliary facts -/

/-- String constants appearing in the concrete scenarios. -/
def abcStr : String := "abc"

def zeroStr : String := "0"

def minusFiftyStr : String := "-50"

/-- A clamped ratio `max (min x T) 0 / T` lies in `[0, 1]` when `T > 0`. -/
theorem clampRatioBounds (x T : ℚ) (hT : 0 < T) :
    0 ≤ max (min x T) 0 / T ∧ max (min x T) 0 / T ≤ 1 := by
  constructor
  · exact div_nonneg (le_max_right _ _) hT.le
  · rw [div_le_one hT]
    exact max_le (min_le_right _ _) hT.le

/-! ## Claims -/

/-- C1: `getBreakpointIndex` is specified to return, on every
invocation, the largest index `i` with `breakpoints[i] ≤ W`.  On the
breakpoint list `[0, 768, 1440, 1920]` at viewport width 1000 the first
invocation indeed returns the spec's answer 1, but it leaves
`this.breakpoints` reversed in place, so the second invocation returns
3 (the last index) instead of 1: the code contradicts the stated
contract on every even-numbered invocation. -/
theorem C1_getBreakpointIndex_second_invocation_bug :
    (getBreakpointIndexS 1000 [0, 768, 1440, 1920]).1 = 1 ∧
    specBreakpointIndex [0, 768, 1440, 1920] 1000 = 1 ∧
    (getBreakpointIndexS 1000
        (getBreakpointIndexS 1000 [0, 768, 1440, 1920]).2).1 = 3 := by
  decide

/-- C2: at a resolved breakpoint index, `getInpoint`/`getOutpoint`
return the selected entry when it is defined and non-zero, and fall
back to the first entry (`values[0]`) when the selected entry is zero
or out of range; in particular a configured 0 at a breakpoint resolves
to `values[0]`. -/
theorem C2_point_resolution_fallback (values : List Int) (i : Nat)
    (h : values ≠ []) :
    (∀ v, values.get? i = some v → v ≠ 0 →
      getInpoint values i = v ∧ getOutpoint values i = v) ∧
    ((values.get? i = some 0 ∨ values.get? i = none) →
      getInpoint values i = values.headD 0 ∧
      getOutpoint values i = values.headD 0 ∧
      values.get? 0 = some (values.headD 0)) := by
  have h0 : values.get? 0 = some (values.headD 0) := by
    cases values with
    | nil => exact absurd rfl h
    | cons a l => rfl
  constructor
  · intro v hv hvne
    unfold getInpoint getOutpoint
    rw [hv]
    simp [hvne]
  · rintro (hv | hv)
    · exact ⟨by unfold getInpoint; rw [hv]; simp,
             by unfold getOutpoint; rw [hv]; simp, h0⟩
    · exact ⟨by unfold getInpoint; rw [hv],
             by unfold getOutpoint; rw [hv], h0⟩

/-- Witness for C2 at `values = [100, 0, 200]`, `i = 1`: the zero entry
at breakpoint index 1 falls back to `values[0] = 100`. -/
theorem C2_point_resolution_fallback_witness :
    getInpoint [100, 0, 200] 1 = 100 ∧ getOutpoint [100, 0, 200] 1 = 100 := by
  have h := (C2_point_resolution_fallback [100, 0, 200] 1 (by decide)).2
    (Or.inl (by decide))
  exact ⟨h.1, h.2.1⟩

/-- C3: the computed scale equals
`max(originalScale + (scrollY - inpoint) * (min(speed,100)/100) / 100, 0)`,
hence is never negative; and the concrete scenario `speed = 50`,
`originalScale = 1`, `inpoint = 0`, `scrollY = 200` yields scale 2. -/
theorem C3_getScaleValue_formula (scrollY inpoint speed originalScale : ℚ) :
    getScaleValue scrollY inpoint speed originalScale =
      max (originalScale + (scrollY - inpoint) * (min speed 100 / 100) / 100) 0 ∧
    0 ≤ getScaleValue scrollY inpoint speed originalScale ∧
    getScaleValue 200 0 50 1 = 2 := by
  refine ⟨rfl, le_max_right _ _, ?_⟩
  norm_num [getScaleValue, speedFactor]

/-- Each `getBreakpointIndex` call leaves the breakpoint list reversed
in place. -/
theorem getBreakpointIndexS_snd (w : Int) (b : List Int) :
    (getBreakpointIndexS w b).2 = b.reverse := by
  simp only [getBreakpointIndexS]
  split <;> rfl

/-- A full pass of `resetLayerParams` makes two `getBreakpointIndex`
calls per layer, so it restores the breakpoint list it started from. -/
theorem resetLayersGo_snd (w : Int) (ls : List LayerI) (b : List Int) :
    (resetLayersGo w ls b).2 = b := by
  induction ls generalizing b with
  | nil => rfl
  | cons l ls ih =>
    simp only [resetLayersGo, getBreakpointIndexS_snd, List.reverse_reverse]
    exact ih b

/-- Re-running the `forEach` body on already-reset layers from the same
breakpoint list reproduces the same layers: `params` is overwritten
wholesale and `ref`/`elem` are untouched. -/
theorem resetLayersGo_overwrite (w : Int) (ls : List LayerI) (b : List Int) :
    resetLayersGo w (resetLayersGo w ls b).1 b = resetLayersGo w ls b := by
  induction ls generalizing b with
  | nil => rfl
  | cons l ls ih =>
    simp only [resetLayersGo, getBreakpointIndexS_snd, List.reverse_reverse]
    rw [ih b]

/-- C6: the resize recomputation `resetLayerParams` is idempotent at a
fixed viewport width: although every `getBreakpointIndex` call reverses
the breakpoint list in place, one pass makes an even number of such
calls (two per layer), so the list is restored and a second pass
resolves exactly the same `params` for every layer. -/
theorem C6_resetLayerParams_idempotent (w : Int) (st : PushInState) :
    resetLayerParams w (resetLayerParams w st) = resetLayerParams w st := by
  unfold resetLayerParams
  simp only [resetLayersGo_snd]
  rw [resetLayersGo_overwrite]

/-- C7 counterexample: the claim asserts the effective speed factor
lies in `[0, 1]` for every configured speed, including negative ones;
at speed `-50` the code computes `min(-50, 100)/100 = -1/2`, which is
negative. -/
theorem C7_counterexample_negative_speed :
    speedFactor (-50) = -1/2 ∧ ¬ (0 ≤ speedFactor (-50) ∧ speedFactor (-50) ≤ 1) := by
  norm_num [speedFactor]

/-- C7 (amended): the speed is clamped only from above at use time:
the effective factor `min(speed,100)/100` is always at most 1, and it
lies in `[0, 1]` whenever the configured speed is non-negative; a
negative configured speed yields a negative factor. -/
theorem C7_speedFactor_upper_clamp (speed : ℚ) :
    speedFactor speed ≤ 1 ∧
    (0 ≤ speed → 0 ≤ speedFactor speed ∧ speedFactor speed ≤ 1) ∧
    (speed < 0 → speedFactor speed < 0) := by
  have hub : speedFactor speed ≤ 1 := by
    unfold speedFactor
    rw [div_le_one (by norm_num : (0:ℚ) < 100)]
    exact min_le_right _ _
  refine ⟨hub, fun hs => ⟨?_, hub⟩, fun hs => ?_⟩
  · exact div_nonneg (le_min hs (by norm_num)) (by norm_num)
  · unfold speedFactor
    have : min speed 100 = speed := min_eq_left (by linarith)
    rw [this]
    exact div_neg_of_neg_of_pos hs (by norm_num)

/-- Witness for C7 at `speed = 50`: the factor is `1/2 ∈ [0, 1]`. -/
theorem C7_speedFactor_upper_clamp_witness :
    0 ≤ speedFactor 50 ∧ speedFactor 50 ≤ 1 :=
  (C7_speedFactor_upper_clamp 50).2.1 (by norm_num)

/-- C4: a non-first layer with transitions enabled is written opacity 0
at every scroll position strictly before its inpoint (with
`inpoint ≤ outpoint`): the first-layer and last-layer special branches
do not fire, and the layer is inactive. -/
theorem C4_before_inpoint_opacity_zero (p : LayerParams)
    (originalScale scrollY : ℚ) (index total : Nat)
    (hfirst : index ≠ 0) (htrans : p.transitions = true)
    (hlt : scrollY < p.inpoint) (hio : p.inpoint ≤ p.outpoint) :
    (setLayerStyle p originalScale scrollY index total).opacity = 0 := by
  unfold setLayerStyle
  have h1 : (index == 0) = false := by simp [hfirst]
  have h2 : ¬ (p.outpoint < scrollY) := not_lt.mpr (hlt.le.trans hio)
  have h3 : isActive p scrollY = false := by
    simp only [isActive, htrans, if_true]
    simp [not_le.mpr hlt]
  simp [h1, h2, h3]

/-- Witness for C4: layer 1 of 3 with `inpoint = 100`,
`outpoint = 500`, transitions on, at `scrollY = 50`. -/
theorem C4_before_inpoint_opacity_zero_witness :
    (setLayerStyle ⟨100, 500, 8, true, 200, 200⟩ 1 50 1 3).opacity = 0 :=
  C4_before_inpoint_opacity_zero ⟨100, 500, 8, true, 200, 200⟩ 1 50 1 3
    (by decide) rfl (by norm_num) (by norm_num)

/-- C5: for the last layer past its outpoint (with
`inpoint ≤ outpoint`), `setLayerStyle` writes opacity 1, and when
transitions are disabled it additionally applies the scale transform in
this branch — the one scale write outside the active branch. -/
theorem C5_last_layer_past_outpoint (p : LayerParams)
    (originalScale scrollY : ℚ) (index total : Nat)
    (hlast : index + 1 = total) (hgt : p.outpoint < scrollY)
    (hio : p.inpoint ≤ p.outpoint) :
    (setLayerStyle p originalScale scrollY index total).opacity = 1 ∧
    (p.transitions = false →
      (setLayerStyle p originalScale scrollY index total).scaleWrite =
        some (getScaleValue scrollY p.inpoint p.speed originalScale)) := by
  unfold setLayerStyle
  have h1 : ¬ (scrollY < p.inpoint) := not_lt.mpr ((hio.trans hgt.le))
  have h2 : (index + 1 == total) = true := by simp [hlast]
  constructor
  · simp [h1, h2, hgt]
  · intro ht
    simp [h1, h2, hgt, ht]

/-- Witness for C5: the last layer (index 2 of 3) with
`inpoint = 100`, `outpoint = 500`, transitions off, at
`scrollY = 600`. -/
theorem C5_last_layer_past_outpoint_witness :
    (setLayerStyle ⟨100, 500, 8, false, 200, 200⟩ 1 600 2 3).opacity = 1 ∧
    (setLayerStyle ⟨100, 500, 8, false, 200, 200⟩ 1 600 2 3).scaleWrite =
      some (getScaleValue 600 100 8 1) := by
  have h := C5_last_layer_past_outpoint ⟨100, 500, 8, false, 200, 200⟩ 1 600 2 3
    rfl (by norm_num) (by norm_num)
  exact ⟨h.1, h.2 rfl⟩

/-- C8: whenever the resolved transition windows are strictly
positive, the opacity `setLayerStyle` writes lies in `[0, 1]`, for
every scroll position, layer ordinal and transitions setting: it is
0, 1, or the minimum of two ratios each clamped to `[0, 1]`. -/
theorem C8_opacity_unit_interval (p : LayerParams)
    (originalScale scrollY : ℚ) (index total : Nat)
    (hts : 0 < p.transitionStart) (hte : 0 < p.transitionEnd) :
    0 ≤ (setLayerStyle p originalScale scrollY index total).opacity ∧
    (setLayerStyle p originalScale scrollY index total).opacity ≤ 1 := by
  have hin := clampRatioBounds (scrollY - p.inpoint) p.transitionStart hts
  have hout := clampRatioBounds (p.outpoint - scrollY) p.transitionEnd hte
  simp only [setLayerStyle]
  split
  · exact ⟨zero_le_one, le_refl 1⟩
  · split
    · exact ⟨zero_le_one, le_refl 1⟩
    · split
      · dsimp only
        constructor
        · split
          · refine le_min ?_ ?_ <;> split
            · exact zero_le_one
            · exact hin.1
            · exact zero_le_one
            · exact hout.1
          · exact zero_le_one
        · split
          · refine (min_le_left _ _).trans ?_
            split
            · exact le_refl 1
            · exact hin.2
          · exact le_refl 1
      · exact ⟨le_refl 0, zero_le_one⟩

/-- Witness for C8: a middle layer (index 1 of 3) with transition
windows of 200 at `scrollY = 150` inside its active range. -/
theorem C8_opacity_unit_interval_witness :
    0 ≤ (setLayerStyle ⟨100, 500, 8, true, 200, 200⟩ 1 150 1 3).opacity ∧
    (setLayerStyle ⟨100, 500, 8, true, 200, 200⟩ 1 150 1 3).opacity ≤ 1 :=
  C8_opacity_unit_interval ⟨100, 500, 8, true, 200, 200⟩ 1 150 1 3
    (by norm_num) (by norm_num)

/-- C9: a `data-pushin-speed` attribute whose value parses to NaN
(e.g. `"abc"`) makes `getSpeed` return the default speed 8, in both the
JavaScript and the TypeScript variants. -/
theorem C9_nan_speed_defaults :
    getSpeed (some abcStr) = defaultSpeed ∧
    getSpeedTS (some abcStr) none = defaultSpeed ∧
    defaultSpeed = 8 := by
  decide

/-- C10: a configured speed of 0 — attribute value `"0"` or
programmatic option `speed: 0` — is treated as unset by the final
`speed || 8`, so `getSpeed` returns the default 8. -/
theorem C10_zero_speed_treated_as_unset :
    getSpeed (some zeroStr) = 8 ∧
    getSpeedTS (some zeroStr) none = 8 ∧
    getSpeedTS none (some 0) = 8 := by
  decide

end PushIn
